import Mathlib

/-!
Shallow embedding of the make-react-starter Express/React server core:
the API routes module (server/routes/api.ts), the route registrar
(server/routes/index.ts), the two server bootstraps (server/app.ts and the
vite.ts-based variant), the SSR render module (server/render.tsx) and the
production static-serving precondition (server/vite.ts, serveStatic).

JavaScript strings are modelled as Lean Strings, JSON values as an inductive
type, per-request ambient data (clock, environment, uptime) as explicit
parameters, and the Express middleware stack as an ordered list of handlers
dispatched by first match.
-/


/-- JSON values, as produced by the API handlers via res.json.
Numeric values are abstracted to integers: the claims only inspect which
fields are numbers, never their floating-point content. -/
inductive Js where
  | str (s : String)
  | num (n : Int)
  | bool (b : Bool)
  | obj (fields : List (String × Js))
  | arr (elems : List Js)
  | nul

/-- Field lookup in a JSON object literal (first binding wins). -/
def jsLookup (fields : List (String × Js)) (k : String) : Option Js :=
  match fields with
  | [] => none
  | (k2, v) :: rest => if k2 = k then some v else jsLookup rest k

/-- The keys of a JSON object literal, in order. -/
def jsKeys (fields : List (String × Js)) : List String :=
  fields.map (fun f => f.fst)

/-- A JavaScript Date instant, broken into the UTC components that
Date.prototype.toISOString prints. -/
structure JsDate where
  year : Nat
  month : Nat
  day : Nat
  hour : Nat
  minute : Nat
  second : Nat
  millis : Nat
deriving DecidableEq, Repr

/-- One decimal digit character (last decimal digit of k). -/
def digitChar (k : Nat) : Char := Char.ofNat (48 + k % 10)

/-- Two zero-padded decimal digits. -/
def pad2 (n : Nat) : List Char := [digitChar (n / 10), digitChar n]

/-- Three zero-padded decimal digits. -/
def pad3 (n : Nat) : List Char := [digitChar (n / 100), digitChar (n / 10), digitChar n]

/-- Four zero-padded decimal digits. -/
def pad4 (n : Nat) : List Char :=
  [digitChar (n / 1000), digitChar (n / 100), digitChar (n / 10), digitChar n]

/-- Date.prototype.toISOString: the fixed 24-character UTC form
YYYY-MM-DDTHH:mm:ss.sssZ used by new Date().toISOString() in the handlers. -/
def toISOString (d : JsDate) : String :=
  String.mk (pad4 d.year ++ [ '-' ] ++ pad2 d.month ++ [ '-' ] ++ pad2 d.day ++
    [ 'T' ] ++ pad2 d.hour ++ [ ':' ] ++ pad2 d.minute ++ [ ':' ] ++ pad2 d.second ++
    [ '.' ] ++ pad3 d.millis ++ [ 'Z' ])

/-- Recogniser for the ISO8601 shape produced by toISOString. -/
def isISO8601 (s : String) : Bool :=
  match s.toList with
  | [y1, y2, y3, y4, d1, mo1, mo2, d2, da1, da2, t1, h1, h2, c1, mi1, mi2, c2,
     se1, se2, p1, ms1, ms2, ms3, z1] =>
      y1.isDigit && y2.isDigit && y3.isDigit && y4.isDigit && (d1 == '-') &&
      mo1.isDigit && mo2.isDigit && (d2 == '-') && da1.isDigit && da2.isDigit &&
      (t1 == 'T') && h1.isDigit && h2.isDigit && (c1 == ':') &&
      mi1.isDigit && mi2.isDigit && (c2 == ':') && se1.isDigit && se2.isDigit &&
      (p1 == '.') && ms1.isDigit && ms2.isDigit && ms3.isDigit && (z1 == 'Z')
  | _ => false

/-- String.prototype.toLowerCase, character by character (ASCII-faithful). -/
def lowerStr (s : String) : String := String.mk (s.toList.map Char.toLower)

/-- String.prototype.trim: strip leading and trailing whitespace. -/
def trimStr (s : String) : String :=
  String.mk ((((s.toList.dropWhile Char.isWhitespace).reverse).dropWhile
    Char.isWhitespace).reverse)

/-- Split a character list at every occurrence of the separator c
(the separator is dropped; n separators yield n+1 pieces). -/
def splitOnChar (c : Char) (cs : List Char) : List (List Char) :=
  match cs with
  | [] => [[]]
  | x :: xs =>
      match splitOnChar c xs with
      | [] => if x == c then [[], []] else [[x]]
      | h :: t => if x == c then [] :: h :: t else (x :: h) :: t

/-- The email regex of api.ts, from isValidEmail:
one run of non-whitespace non-at characters, an at sign, then a run that
contains a dot with at least one character on each side (no whitespace, no
second at sign anywhere). -/
def isValidEmail (email : String) : Bool :=
  match splitOnChar '@' email.toList with
  | [localPart, domainPart] =>
      (!localPart.isEmpty) && localPart.all (fun c => !c.isWhitespace) &&
      (!domainPart.isEmpty) && domainPart.all (fun c => !c.isWhitespace) &&
      (((domainPart.drop 1).dropLast).contains '.')
  | _ => false

/-- A user record, from the User interface of server/routes/api.ts.
The optional createdAt field is absent on the three seed users and set from
new Date().toISOString() on created users; id is set from Date.now(). -/
structure User where
  id : Nat
  name : String
  email : String
  createdAt : Option String
deriving DecidableEq, Repr

/-- The mock in-memory database seeded at module load (api.ts, mockUsers). -/
def mockUsers : List User :=
  [ { id := 1, name := "John Doe", email := "john@example.com", createdAt := none },
    { id := 2, name := "Jane Smith", email := "jane@example.com", createdAt := none },
    { id := 3, name := "Bob Johnson", email := "bob@example.com", createdAt := none } ]

/-- JSON serialisation of a user record; JSON.stringify drops the createdAt
key when the field is undefined. -/
def userJson (u : User) : Js :=
  Js.obj ([("id", Js.num (u.id : Int)), ("name", Js.str u.name), ("email", Js.str u.email)] ++
    (match u.createdAt with
     | some t => [("createdAt", Js.str t)]
     | none => []))

/-- Body of an HTTP response: an HTML document, plain text, or JSON. -/
inductive RBody where
  | html (s : String)
  | text (s : String)
  | json (j : Js)

/-- An HTTP response as produced by the Express handlers. -/
structure HttpResponse where
  status : Nat
  contentType : Option String
  body : RBody

/-- The parsed JSON request body, restricted to the two fields the
POST /api/users handler destructures. A field can be absent or hold any
JSON value (the handler checks typeof). -/
structure ReqBody where
  name : Option Js
  email : Option Js

/-- The combined check (value present) and (typeof value is string) used by
the validation branches of the POST /api/users handler. A JS falsy string
value can only be the empty string, which the trim/regex checks reject
anyway, so present-non-string and absent collapse to none. -/
def getStr (v : Option Js) : Option String :=
  match v with
  | some (Js.str s) => some s
  | _ => none

/-- 400 response of the name validation branch of POST /api/users. -/
def nameErrorResponse : HttpResponse :=
  { status := 400, contentType := some ("application/json"),
    body := RBody.json (Js.obj [("success", Js.bool false),
      ("error", Js.str ("Name is required and must be a non-empty string"))]) }

/-- 400 response of the email validation branch of POST /api/users. -/
def emailErrorResponse : HttpResponse :=
  { status := 400, contentType := some ("application/json"),
    body := RBody.json (Js.obj [("success", Js.bool false),
      ("error", Js.str ("Valid email address is required"))]) }

/-- 409 response of the duplicate-email branch of POST /api/users. -/
def conflictResponse : HttpResponse :=
  { status := 409, contentType := some ("application/json"),
    body := RBody.json (Js.obj [("success", Js.bool false),
      ("error", Js.str ("User with this email already exists"))]) }

/-- POST /api/users (api.ts lines 113 to 166): validate name and email,
reject duplicate emails case-insensitively with 409, otherwise append the
new user (id from Date.now(), createdAt from new Date().toISOString())
and answer 201 with the created record echoed. Returns the response and
the updated store. -/
def postUsers (body : ReqBody) (store : List User) (nowMs : Nat) (nowIso : String) :
    HttpResponse × List User :=
  match getStr body.name with
  | none => (nameErrorResponse, store)
  | some name =>
    if (trimStr name).isEmpty then (nameErrorResponse, store)
    else
      match getStr body.email with
      | none => (emailErrorResponse, store)
      | some email =>
        if !(isValidEmail email) then (emailErrorResponse, store)
        else
          match store.find? (fun u => lowerStr u.email == lowerStr email) with
          | some _ => (conflictResponse, store)
          | none =>
            let newUser : User :=
              { id := nowMs, name := trimStr name,
                email := trimStr (lowerStr email), createdAt := some nowIso }
            ({ status := 201, contentType := some ("application/json"),
               body := RBody.json (Js.obj [("success", Js.bool true),
                 ("data", userJson newUser),
                 ("message", Js.str ("User created successfully"))]) },
             store ++ [newUser])

/-- The JSON object answered by GET /api/health (api.ts lines 65 to 75):
status, timestamp, env, uptime and memory. The ambient clock, NODE_ENV,
process uptime and memory usage are explicit parameters. -/
def healthData (now : JsDate) (env : Option String) (uptime : Int)
    (memory : List (String × Js)) : List (String × Js) :=
  [("status", Js.str ("ok")),
   ("timestamp", Js.str (toISOString now)),
   ("env", Js.str (env.getD ("development"))),
   ("uptime", Js.num uptime),
   ("memory", Js.obj memory)]

/-- GET /api/health: res.json of healthData, with the implicit 200 status. -/
def healthHandler (now : JsDate) (env : Option String) (uptime : Int)
    (memory : List (String × Js)) : HttpResponse :=
  { status := 200, contentType := some ("application/json"),
    body := RBody.json (Js.obj (healthData now env uptime memory)) }

/-- GET /api/users (api.ts lines 86 to 100): the full store as JSON. -/
def getUsers (store : List User) : HttpResponse :=
  { status := 200, contentType := some ("application/json"),
    body := RBody.json (Js.obj [("success", Js.bool true),
      ("data", Js.arr (store.map userJson)),
      ("count", Js.num (store.length : Int))]) }

/-- HTTP method of an incoming request. -/
inductive Method where
  | GET
  | POST
  | OTHER
deriving DecidableEq, Repr

/-- An incoming request together with the ambient per-request world the
handlers read: Date.now(), new Date(), process.env.NODE_ENV,
process.uptime() and process.memoryUsage(). -/
structure Request where
  method : Method
  path : String
  body : ReqBody
  nowMs : Nat
  now : JsDate
  env : Option String
  uptime : Int
  memory : List (String × Js)

/-- An Express-style handler over the user store: it either produces a
response (and possibly a new store) or calls next() by returning none. -/
def Handler : Type := Request → List User → Option (HttpResponse × List User)

/-- Express dispatch over the ordered middleware stack: the first handler
that produces a response answers the request; handlers that return none
fall through to the next one. -/
def dispatch (stack : List Handler) (req : Request) (store : List User) :
    Option (HttpResponse × List User) :=
  match stack with
  | [] => none
  | h :: t =>
      match h req store with
      | some out => some out
      | none => dispatch t req store

/-- The API router of server/routes/api.ts mounted at the /api prefix by
registerRoutes (routes/index.ts): GET /health, GET /users, POST /users.
Requests under /api that match none of the three routes fall through. -/
def apiMount : Handler := fun req store =>
  match req.method, req.path with
  | Method.GET, "/api/health" =>
      some (healthHandler req.now req.env req.uptime req.memory, store)
  | Method.GET, "/api/users" => some (getUsers store, store)
  | Method.POST, "/api/users" => some (postUsers req.body store req.nowMs (toISOString req.now))
  | _, _ => none

/-- registerRoutes (server/routes/index.ts lines 22 to 27): appends the
single mount app.use of the /api router to the app middleware stack. -/
def registerRoutes (app : List Handler) : List Handler := app ++ [apiMount]

/-- Development catch-all of server/app.ts (lines 50 to 61): read
client/index.html fresh, run it through vite.transformIndexHtml for the
request URL, answer 200 text/html; a failed template read goes to next(e). -/
def devCatchAllAppTs (tfm : String → String → String) (tmpl : Option String) : Handler :=
  fun req store =>
    match tmpl with
    | some t =>
        some ({ status := 200, contentType := some ("text/html"),
                body := RBody.html (tfm req.path t) }, store)
    | none => none

/-- Production catch-all of server/app.ts (lines 70 to 79): GET only; read
dist/client/index.html and answer 200 text/html with it unchanged, or 500
with a plain Internal Server Error text when the read throws. -/
def prodCatchAllAppTs (tmpl : Option String) : Handler :=
  fun req store =>
    if req.method = Method.GET then
      match tmpl with
      | some t =>
          some ({ status := 200, contentType := some ("text/html"),
                  body := RBody.html t }, store)
      | none =>
          some ({ status := 500, contentType := none,
                  body := RBody.text ("Internal Server Error") }, store)
    else none

/-- Replace the first occurrence of pat by repl (String.prototype.replace
with a string pattern), on character lists. -/
def replaceFirst (pat repl : List Char) (cs : List Char) : List Char :=
  match cs with
  | [] => []
  | x :: xs =>
      if pat.isPrefixOf (x :: xs) then repl ++ (x :: xs).drop pat.length
      else x :: replaceFirst pat repl xs

/-- The literal script-source attribute the dev server rewrites. -/
def srcMarker : String := "src=\"/src/main.tsx\""

/-- The rewritten attribute with the cache-busting query (nanoid token). -/
def bustedSrc (token : String) : String := "src=\"/src/main.tsx?v=" ++ token ++ "\""

/-- Cache busting of server/vite.ts (lines 78 to 81): rewrite the first
occurrence of the main.tsx script source to carry a fresh random token. -/
def cacheBust (token : String) (t : String) : String :=
  String.mk (replaceFirst srcMarker.toList (bustedSrc token).toList t.toList)

/-- Development catch-all installed by setupVite (server/vite.ts lines 68
to 89): reload the template from disk, apply cache busting, then
vite.transformIndexHtml, answer 200 text/html; read failures go to
next(e). The nanoid token is an explicit parameter. -/
def setupViteCatchAll (tfm : String → String → String) (tmpl : Option String)
    (token : String) : Handler :=
  fun req store =>
    match tmpl with
    | some t =>
        some ({ status := 200, contentType := some ("text/html"),
                body := RBody.html (tfm req.path (cacheBust token t)) }, store)
    | none => none

/-- SPA fallback installed by serveStatic (server/vite.ts lines 111 to
113): res.sendFile of the built index.html for any remaining path. -/
def serveStaticFallback (tmpl : String) : Handler :=
  fun _ store =>
    some ({ status := 200, contentType := some ("text/html"),
            body := RBody.html tmpl }, store)

/-- Middleware stack assembled by server/app.ts in development (lines 35
to 61): vite.middlewares, then registerRoutes, then the catch-all. The
body-parsing middlewares produce no responses and are omitted. -/
def devStackAppTs (viteMw : Handler) (tfm : String → String → String)
    (tmpl : Option String) : List Handler :=
  registerRoutes [viteMw] ++ [devCatchAllAppTs tfm tmpl]

/-- Middleware stack assembled by server/app.ts in production (lines 62 to
79): express.static, then registerRoutes, then the GET catch-all. -/
def prodStackAppTs (staticMw : Handler) (tmpl : Option String) : List Handler :=
  registerRoutes [staticMw] ++ [prodCatchAllAppTs tmpl]

/-- Middleware stack of the vite.ts-based bootstrap in development
(part_006 lines 32 to 37 with setupVite): registerRoutes first, then
vite.middlewares, then the setupVite catch-all. -/
def devStackVite (viteMw : Handler) (tfm : String → String → String)
    (tmpl : Option String) (token : String) : List Handler :=
  registerRoutes [] ++ [viteMw, setupViteCatchAll tfm tmpl token]

/-- Middleware stack of the vite.ts-based bootstrap in production
(part_006 lines 32 to 41 with serveStatic): registerRoutes first, then
express.static, then the sendFile fallback. -/
def prodStackVite (staticMw : Handler) (tmpl : String) : List Handler :=
  registerRoutes [] ++ [staticMw, serveStaticFallback tmpl]

/-- The fallback fragment returned by the catch branch of render
(server/render.tsx lines 70 to 78), with the location interpolated. -/
def fallbackHtml (location : String) : String :=
  "\n      <div class=\"min-h-screen flex items-center justify-center bg-background\">\n" ++
  "        <div class=\"text-center\">\n" ++
  "          <h1 class=\"text-xl text-destructive mb-2\">Rendering Error</h1>\n" ++
  "          <p class=\"text-muted-foreground\">Failed to render route: " ++ location ++
  "</p>\n        </div>\n      </div>\n    "

/-- Message logged on a successful development render (render.tsx line 62). -/
def ssrOkLog (location : String) : String :=
  "✅ SSR render completed successfully for route: " ++ location

/-- Message logged when rendering throws (render.tsx line 68). -/
def ssrErrLog (location : String) : String :=
  "❌ SSR render failed for route: " ++ location

/-- What render returns, or the exception it would propagate, together with
the console lines it emitted (message, attached error object). -/
structure RenderOut where
  result : Except String String
  log : List (String × Option String)

/-- The render function of server/render.tsx (lines 50 to 80).
renderToString over StaticRouter and App is external React code: it is
abstracted as the appRender parameter, a function of the location whose
value encodes the application component tree and state; a thrown exception
is an Except.error. The ambient NODE_ENV is the env parameter and only
guards the success-path console.log. -/
def render (appRender : String → Except String String) (env : Option String)
    (location : String) : RenderOut :=
  match appRender location with
  | Except.ok htmlString =>
      { result := Except.ok htmlString,
        log := if env = some ("production") then [] else [(ssrOkLog location, none)] }
  | Except.error e =>
      { result := Except.ok (fallbackHtml location),
        log := [(ssrErrLog location, some e)] }

/-- The pieces of the production filesystem the bootstraps consult: whether
the build directory dist/client exists, and the content of its index.html
when readable. -/
structure ProdFs where
  distExists : Bool
  indexHtml : Option String

/-- Outcome of a server startup: either server.listen was reached (the
port is bound, serving the given stack) or the process exited. -/
inductive StartupOutcome where
  | listening (stack : List Handler)
  | exited (code : Nat)

/-- Whether the startup bound the listening port. -/
def StartupOutcome.bindsPort : StartupOutcome → Bool
  | StartupOutcome.listening _ => true
  | StartupOutcome.exited _ => false

/-- serveStatic of server/vite.ts (lines 99 to 116): throw when the build
directory is missing, otherwise install express.static and the sendFile
fallback. The thrown Error is the Except.error value. -/
def serveStatic (distPath : String) (staticMw fallback : Handler) (fs : ProdFs) :
    Except String (List Handler) :=
  if fs.distExists then Except.ok [staticMw, fallback]
  else Except.error ("Could not find the build directory: " ++ distPath ++
    ", make sure to build the client first")

/-- createServer of the vite.ts-based bootstrap (part_006 lines 24 to 57)
in production mode: registerRoutes, then serveStatic; a throw from
serveStatic aborts createServer before server.listen. -/
def createServerProdVite (distPath : String) (staticMw fallback : Handler)
    (fs : ProdFs) : Except String (List Handler) :=
  match serveStatic distPath staticMw fallback fs with
  | Except.ok tail => Except.ok (registerRoutes [] ++ tail)
  | Except.error e => Except.error e

/-- Top level of the vite.ts-based bootstrap (part_006 lines 43 to 62):
listen on success; createServer().catch(... process.exit(1)) on a throw. -/
def mainProdVite (distPath : String) (staticMw fallback : Handler)
    (fs : ProdFs) : StartupOutcome :=
  match createServerProdVite distPath staticMw fallback fs with
  | Except.ok stack => StartupOutcome.listening stack
  | Except.error _ => StartupOutcome.exited 1

/-- Production startup of server/app.ts (lines 62 to 103): no existence
check on the build directory is performed anywhere, so app.listen is
always reached and the assembled stack serves; a missing index.html only
surfaces per request as a 500 in the catch-all. -/
def mainProdAppTs (staticMw : Handler) (fs : ProdFs) : StartupOutcome :=
  StartupOutcome.listening (prodStackAppTs staticMw fs.indexHtml)

/-- Modelled from the spec: the client HTML Template (client/index.html)
is referenced by both bootstraps but is not among the provided source
files. Per the spec it is an HTML shell with head tags, a single insertion
element and the client bootstrap script reference /src/main.tsx. -/
def indexHtmlTemplate : String :=
  "<!DOCTYPE html>\n<html lang=\"en\">\n  <head>\n    <meta charset=\"UTF-8\" />\n" ++
  "    <title>Make React Starter</title>\n  </head>\n  <body>\n" ++
  "    <div id=\"root\"></div>\n" ++
  "    <script type=\"module\" src=\"/src/main.tsx\"></script>\n  </body>\n</html>\n"

/-- Request body of the concrete C7 scenario. -/
def adaBody : ReqBody :=
  { name := some (Js.str ("Ada")), email := some (Js.str ("ada@example.com")) }

/-- The record the C7 scenario creates (Date.now() = 1700000000000). -/
def adaUser : User :=
  { id := 1700000000000, name := "Ada", email := "ada@example.com",
    createdAt := some ("2023-11-14T22:13:20.000Z") }

/-- A middleware that declines every request (used to instantiate the
vite/static asset middlewares on non-asset paths). -/
def passMw : Handler := fun _ _ => none

/-- The identity HTML transform (an instance of vite.transformIndexHtml). -/
def idTfm : String → String → String := fun _ s => s

/-- A concrete GET /api/health request with its ambient world. -/
def healthReq : Request :=
  { method := Method.GET, path := "/api/health",
    body := { name := none, email := none },
    nowMs := 1700000000000, now := ⟨2023, 12, 7, 10, 30, 0, 0⟩,
    env := some ("production"), uptime := 42, memory := [] }

/-- A concrete GET /about page request with its ambient world. -/
def aboutReq : Request :=
  { method := Method.GET, path := "/about",
    body := { name := none, email := none },
    nowMs := 1700000000000, now := ⟨2023, 12, 7, 10, 30, 0, 0⟩,
    env := none, uptime := 0, memory := [] }

theorem digitChar_isDigit (k : Nat) : (digitChar k).isDigit = true := by
  unfold digitChar
  have h : k % 10 < 10 := Nat.mod_lt _ (by norm_num)
  set m := k % 10 with hm
  interval_cases m <;> decide

/-- Every string printed by the embedded toISOString is ISO8601. -/
theorem isISO8601_toISOString (d : JsDate) : isISO8601 (toISOString d) = true := by
  simp [toISOString, isISO8601, pad4, pad3, pad2, String.toList, digitChar_isDigit]

theorem dispatch_cons (h : Handler) (t : List Handler) (req : Request)
    (st : List User) :
    dispatch (h :: t) req st =
      (match h req st with
       | some out => some out
       | none => dispatch t req st) := rfl

theorem dispatch_dup (xs ys : List Handler) (h : Handler) (req : Request)
    (st : List User) :
    dispatch (xs ++ h :: h :: ys) req st = dispatch (xs ++ h :: ys) req st := by
  induction xs with
  | nil =>
      simp only [List.nil_append]
      rw [dispatch_cons, dispatch_cons]
      cases hx : h req st with
      | some out => simp [hx]
      | none => simp [hx, dispatch_cons]
  | cons x t ih =>
      simp only [List.cons_append]
      rw [dispatch_cons, dispatch_cons]
      cases hx : x req st with
      | some out => simp [hx]
      | none => simp only [hx]; exact ih

theorem replaceFirst_eq_or_splits (pat repl : List Char) (cs : List Char) :
    replaceFirst pat repl cs = cs ∨
    ∃ pre suf, cs = pre ++ pat ++ suf ∧
      replaceFirst pat repl cs = pre ++ repl ++ suf := by
  induction cs with
  | nil => left; rfl
  | cons x xs ih =>
      by_cases h : pat.isPrefixOf (x :: xs)
      · right
        obtain ⟨suf, hsuf⟩ := List.isPrefixOf_iff_prefix.mp h
        refine ⟨[], suf, by simp [← hsuf], ?_⟩
        unfold replaceFirst
        rw [if_pos h, ← hsuf, List.drop_left]
        simp
      · rcases ih with h1 | ⟨pre, suf, h1, h2⟩
        · left
          unfold replaceFirst
          rw [if_neg h, h1]
        · right
          refine ⟨x :: pre, suf, by simp [h1], ?_⟩
          unfold replaceFirst
          rw [if_neg h, h2]
          simp

/-- C3 (counterexample): the claim says the GET /api/health body carries a
key uptimeSeconds; at a concrete instant with NODE_ENV=production, uptime
42 and empty memory report, the response body is the healthData object and
its key set has no uptimeSeconds entry (the code names the key uptime). -/
theorem health_no_uptimeSeconds_key :
    (¬ (("uptimeSeconds") ∈
      jsKeys (healthData ⟨2023, 12, 7, 10, 30, 0, 0⟩ (some ("production")) 42 []))) ∧
    (healthHandler ⟨2023, 12, 7, 10, 30, 0, 0⟩ (some ("production")) 42 []).body =
      RBody.json (Js.obj (healthData ⟨2023, 12, 7, 10, 30, 0, 0⟩ (some ("production")) 42 [])) :=
  ⟨by decide, rfl⟩

/-- C3 (amended): for every request, GET /api/health answers 200 (only
branch) with a JSON body whose keys are status, timestamp, env, uptime and
memory, where status is the string ok, timestamp is an ISO8601 string, env
is a string and uptime is a number. -/
theorem health_response_shape (now : JsDate) (env : Option String) (uptime : Int)
    (memory : List (String × Js)) :
    (healthHandler now env uptime memory).status = 200 ∧
    (healthHandler now env uptime memory).contentType = some ("application/json") ∧
    (healthHandler now env uptime memory).body =
      RBody.json (Js.obj (healthData now env uptime memory)) ∧
    jsKeys (healthData now env uptime memory) =
      ["status", "timestamp", "env", "uptime", "memory"] ∧
    jsLookup (healthData now env uptime memory) ("status") = some (Js.str ("ok")) ∧
    (∃ ts, jsLookup (healthData now env uptime memory) ("timestamp") =
      some (Js.str ts) ∧ isISO8601 ts = true) ∧
    (∃ s, jsLookup (healthData now env uptime memory) ("env") = some (Js.str s)) ∧
    (∃ n, jsLookup (healthData now env uptime memory) ("uptime") = some (Js.num n)) := by
  refine ⟨rfl, rfl, rfl, rfl, ?_,
    ⟨toISOString now, ?_, isISO8601_toISOString now⟩,
    ⟨env.getD ("development"), ?_⟩, ⟨uptime, ?_⟩⟩ <;> simp [healthData, jsLookup]

/-- C5: for every route path and every behaviour of the React rendering
(including a throw), render returns normally: the success value is passed
through, and a throw is caught, logged with the path and the error, and
replaced by the fallback fragment; no exception reaches the caller. -/
theorem render_never_throws (appRender : String → Except String String)
    (env : Option String) (location : String) :
    (∃ s, (render appRender env location).result = Except.ok s) ∧
    ((∃ s, appRender location = Except.ok s ∧
        (render appRender env location).result = Except.ok s) ∨
     (∃ e, appRender location = Except.error e ∧
        (render appRender env location).result = Except.ok (fallbackHtml location) ∧
        (ssrErrLog location, some e) ∈ (render appRender env location).log)) := by
  cases h : appRender location with
  | ok s =>
      exact ⟨⟨s, by simp [render, h]⟩, Or.inl ⟨s, rfl, by simp [render, h]⟩⟩
  | error e =>
      exact ⟨⟨fallbackHtml location, by simp [render, h]⟩,
        Or.inr ⟨e, rfl, by simp [render, h], by simp [render, h]⟩⟩

/-- C6: render is deterministic: its returned value is a function of the
route path and the application render function (the application state)
alone; the ambient NODE_ENV, the only global it reads, can change between
two calls without changing a byte of the output. -/
theorem render_deterministic (appRender : String → Except String String)
    (env1 env2 : Option String) (location : String) :
    (render appRender env1 location).result = (render appRender env2 location).result := by
  cases h : appRender location <;> simp [render, h]

/-- C7: POST /api/users with name Ada and the fresh email ada@example.com
answers 201 echoing the created record with the generated id (Date.now)
and createdAt timestamp and appends it to the store; repeating the same
POST against the updated store answers 409 and leaves it unchanged. -/
theorem postUsers_ada_then_conflict :
    (postUsers adaBody mockUsers 1700000000000 ("2023-11-14T22:13:20.000Z")).fst.status = 201 ∧
    (postUsers adaBody mockUsers 1700000000000 ("2023-11-14T22:13:20.000Z")).fst.body =
      RBody.json (Js.obj [("success", Js.bool true),
        ("data", Js.obj [("id", Js.num 1700000000000), ("name", Js.str ("Ada")),
          ("email", Js.str ("ada@example.com")),
          ("createdAt", Js.str ("2023-11-14T22:13:20.000Z"))]),
        ("message", Js.str ("User created successfully"))]) ∧
    (postUsers adaBody mockUsers 1700000000000 ("2023-11-14T22:13:20.000Z")).snd =
      mockUsers ++ [adaUser] ∧
    (postUsers adaBody (mockUsers ++ [adaUser]) 1700000000111
      ("2023-11-14T22:13:20.111Z")).fst = conflictResponse ∧
    conflictResponse.status = 409 ∧
    (postUsers adaBody (mockUsers ++ [adaUser]) 1700000000111
      ("2023-11-14T22:13:20.111Z")).snd = mockUsers ++ [adaUser] :=
  ⟨rfl, rfl, rfl, rfl, rfl, rfl⟩

/-- C8: POST /api/users with empty name and invalid email bad answers 400
with the structured JSON error naming the invalid name field (the handler
reports the first failing check), and the store is unchanged. -/
theorem postUsers_invalid_body_rejected :
    (postUsers { name := some (Js.str ("")), email := some (Js.str ("bad")) }
        mockUsers 1700000000222 ("2023-11-14T22:13:20.222Z")).fst = nameErrorResponse ∧
    nameErrorResponse.status = 400 ∧
    nameErrorResponse.body = RBody.json (Js.obj [("success", Js.bool false),
      ("error", Js.str ("Name is required and must be a non-empty string"))]) ∧
    isValidEmail ("bad") = false ∧
    (postUsers { name := some (Js.str ("")), email := some (Js.str ("bad")) }
        mockUsers 1700000000222 ("2023-11-14T22:13:20.222Z")).snd = mockUsers :=
  ⟨rfl, rfl, rfl, by decide, rfl⟩

/-- C9: registerRoutes appends the one /api mount; running it twice on the
same app stack is observationally the same as running it once: for every
request and store, and any middleware before or after, dispatch returns
the identical result, because the second copy of the mount is only
reachable when the first already declined the request. -/
theorem registerRoutes_twice_unobservable (base rest : List Handler)
    (req : Request) (st : List User) :
    dispatch (registerRoutes (registerRoutes base) ++ rest) req st =
      dispatch (registerRoutes base ++ rest) req st := by
  have h := dispatch_dup base rest apiMount req st
  simpa [registerRoutes, List.append_assoc] using h

/-- C10: POST /api/users changes the store only on the 201 path, where it
appends exactly the created user; every non-201 answer (400 validation,
409 duplicate) leaves the store untouched. -/
theorem postUsers_store_atomic (body : ReqBody) (store : List User)
    (nowMs : Nat) (nowIso : String) :
    (∃ u, (postUsers body store nowMs nowIso).fst.status = 201 ∧
      (postUsers body store nowMs nowIso).snd = store ++ [u]) ∨
    ((postUsers body store nowMs nowIso).fst.status ≠ 201 ∧
      (postUsers body store nowMs nowIso).snd = store) := by
  cases hn : getStr body.name with
  | none => right; simp [postUsers, hn, nameErrorResponse]
  | some name =>
      by_cases ht : (trimStr name).isEmpty = true
      · right; simp [postUsers, hn, ht, nameErrorResponse]
      · cases he : getStr body.email with
        | none => right; simp [postUsers, hn, ht, he, emailErrorResponse]
        | some email =>
            by_cases hv : isValidEmail email = true
            · cases hd : store.find? (fun u => lowerStr u.email == lowerStr email) with
              | some u2 => right; simp [postUsers, hn, ht, he, hv, hd, conflictResponse]
              | none =>
                  left
                  exact ⟨{ id := nowMs, name := trimStr name,
                           email := trimStr (lowerStr email), createdAt := some nowIso },
                    by simp [postUsers, hn, ht, he, hv, hd],
                    by simp [postUsers, hn, ht, he, hv, hd]⟩
            · right; simp [postUsers, hn, ht, he, hv, emailErrorResponse]

/-- C1: in every assembled middleware stack of both bootstraps and both
modes, the /api mount is dispatched before the catch-all SPA handler, so
any request the mounted /api router answers gets the router's response
and never reaches the catch-all; the asset middlewares that sit earlier
only need to decline the request. -/
theorem apiRoutes_precede_catchAll
    (viteMw staticMw : Handler) (tfm : String → String → String)
    (tmpl : Option String) (tmpl2 : String) (token : String)
    (req : Request) (st : List User) (out : HttpResponse × List User)
    (hVite : viteMw req st = none) (hStatic : staticMw req st = none)
    (hApi : apiMount req st = some out) :
    dispatch (devStackAppTs viteMw tfm tmpl) req st = some out ∧
    dispatch (prodStackAppTs staticMw tmpl) req st = some out ∧
    dispatch (devStackVite viteMw tfm tmpl token) req st = some out ∧
    dispatch (prodStackVite staticMw tmpl2) req st = some out := by
  refine ⟨?_, ?_, ?_, ?_⟩ <;>
    simp [devStackAppTs, prodStackAppTs, devStackVite, prodStackVite,
      registerRoutes, dispatch_cons, hVite, hStatic, hApi]

/-- Witness for C1 at the concrete GET /api/health request. -/
theorem apiRoutes_precede_catchAll_witness :
    passMw healthReq mockUsers = none ∧
    apiMount healthReq mockUsers =
      some (healthHandler ⟨2023, 12, 7, 10, 30, 0, 0⟩ (some ("production")) 42 [], mockUsers) ∧
    dispatch (devStackAppTs passMw idTfm (some indexHtmlTemplate)) healthReq mockUsers =
      some (healthHandler ⟨2023, 12, 7, 10, 30, 0, 0⟩ (some ("production")) 42 [], mockUsers) ∧
    dispatch (prodStackVite passMw indexHtmlTemplate) healthReq mockUsers =
      some (healthHandler ⟨2023, 12, 7, 10, 30, 0, 0⟩ (some ("production")) 42 [], mockUsers) :=
  ⟨rfl, rfl,
    (apiRoutes_precede_catchAll passMw passMw idTfm (some indexHtmlTemplate)
      indexHtmlTemplate ("tok") healthReq mockUsers
      (healthHandler ⟨2023, 12, 7, 10, 30, 0, 0⟩ (some ("production")) 42 [], mockUsers)
      rfl rfl rfl).1,
    (apiRoutes_precede_catchAll passMw passMw idTfm (some indexHtmlTemplate)
      indexHtmlTemplate ("tok") healthReq mockUsers
      (healthHandler ⟨2023, 12, 7, 10, 30, 0, 0⟩ (some ("production")) 42 [], mockUsers)
      rfl rfl rfl).2.2.2⟩

/-- C4: a GET request for any path the asset middleware and the /api mount
both decline is answered by the catch-all with 200 and Content-Type
text/html; the body is the template verbatim in production (app.ts), the
vite-transformed template in development (app.ts), and the vite-transformed
cache-busted template in the vite.ts bootstrap, where cache busting either
leaves the template untouched or rewrites exactly the main.tsx
script-source attribute, leaving every byte before and after it - hence
every other static marker such as the head tags - unchanged. -/
theorem catchAll_serves_template
    (viteMw staticMw : Handler) (tfm : String → String → String)
    (t : String) (token : String) (req : Request) (st : List User)
    (hGet : req.method = Method.GET)
    (hVite : viteMw req st = none) (hStatic : staticMw req st = none)
    (hApi : apiMount req st = none) :
    dispatch (prodStackAppTs staticMw (some t)) req st =
      some ({ status := 200, contentType := some ("text/html"),
              body := RBody.html t }, st) ∧
    dispatch (devStackAppTs viteMw tfm (some t)) req st =
      some ({ status := 200, contentType := some ("text/html"),
              body := RBody.html (tfm req.path t) }, st) ∧
    dispatch (devStackVite viteMw tfm (some t) token) req st =
      some ({ status := 200, contentType := some ("text/html"),
              body := RBody.html (tfm req.path (cacheBust token t)) }, st) ∧
    (cacheBust token t = t ∨
      ∃ pre suf, t.toList = pre ++ srcMarker.toList ++ suf ∧
        (cacheBust token t).toList = pre ++ (bustedSrc token).toList ++ suf) := by
  refine ⟨?_, ?_, ?_, ?_⟩
  · simp [prodStackAppTs, registerRoutes, dispatch_cons, hStatic, hApi,
      prodCatchAllAppTs, hGet]
  · simp [devStackAppTs, registerRoutes, dispatch_cons, hVite, hApi, devCatchAllAppTs]
  · simp [devStackVite, registerRoutes, dispatch_cons, hVite, hApi, setupViteCatchAll]
  · rcases replaceFirst_eq_or_splits srcMarker.toList (bustedSrc token).toList t.toList
      with h | ⟨pre, suf, h1, h2⟩
    · left
      unfold cacheBust
      rw [h]
      rfl
    · right
      refine ⟨pre, suf, h1, ?_⟩
      unfold cacheBust
      rw [h2]
      rfl

/-- Witness for C4 at the concrete GET /about request over the modelled
template: the production dispatch serves the template verbatim, and the
head-open marker survives cache busting. -/
theorem catchAll_serves_template_witness :
    aboutReq.method = Method.GET ∧
    passMw aboutReq mockUsers = none ∧
    apiMount aboutReq mockUsers = none ∧
    dispatch (prodStackAppTs passMw (some indexHtmlTemplate)) aboutReq mockUsers =
      some ({ status := 200, contentType := some ("text/html"),
              body := RBody.html indexHtmlTemplate }, mockUsers) ∧
    (String.toList ("<head>")) <:+: (cacheBust ("tok") indexHtmlTemplate).toList :=
  ⟨rfl, rfl, rfl,
    (catchAll_serves_template passMw passMw idTfm indexHtmlTemplate ("tok")
      aboutReq mockUsers rfl rfl rfl rfl).1,
    by decide⟩

/-- C2 (counterexample): in the standalone server/app.ts bootstrap,
production startup performs no existence check on the build directory:
with dist/client missing the process still reaches app.listen (the port is
bound), and a page request is answered 500 per request instead of the
process having exited. -/
theorem appTs_prod_missing_dist_binds_port :
    (mainProdAppTs passMw { distExists := false, indexHtml := none }).bindsPort = true ∧
    dispatch (prodStackAppTs passMw none) aboutReq mockUsers =
      some ({ status := 500, contentType := none,
              body := RBody.text ("Internal Server Error") }, mockUsers) :=
  ⟨rfl, rfl⟩

/-- C2 (amended): in the vite.ts-based bootstrap, production startup with
a missing build directory is fatal: serveStatic throws before
server.listen, the top-level catch exits the process with status 1 and
the listening port is never bound. -/
theorem viteBootstrap_prod_missing_dist_exits
    (distPath : String) (staticMw fallback : Handler) (fs : ProdFs)
    (h : fs.distExists = false) :
    mainProdVite distPath staticMw fallback fs = StartupOutcome.exited 1 ∧
    (mainProdVite distPath staticMw fallback fs).bindsPort = false := by
  constructor <;>
    simp [mainProdVite, createServerProdVite, serveStatic, h, StartupOutcome.bindsPort]

/-- Witness for C2 at a concrete missing-directory filesystem. -/
theorem viteBootstrap_prod_missing_dist_exits_witness :
    ({ distExists := false, indexHtml := none } : ProdFs).distExists = false ∧
    mainProdVite ("/app/dist/client") passMw passMw
      { distExists := false, indexHtml := none } = StartupOutcome.exited 1 :=
  ⟨rfl, (viteBootstrap_prod_missing_dist_exits ("/app/dist/client") passMw passMw
    { distExists := false, indexHtml := none } rfl).1⟩

